import Mathlib

/-!
Verification of the CUDA memory-handle registry and font-overlay bindings
of jetson-utils (src/python/bindings/PyCUDA.cpp), as a shallow embedding.

Pointers are modelled as natural numbers with 0 playing the role of NULL.
The CUDA runtime primitives (cudaMalloc, cudaAllocMapped, cudaFree,
cudaFreeHost) and the Python capsule constructor are external collaborators:
their outcomes are supplied as explicit oracle arguments, and every call the
binding makes to a free/alloc primitive is recorded in an event trace, so
that claims about which primitives get invoked are directly checkable.
-/

namespace PyCUDA

/-- Events recording each invocation of an underlying CUDA primitive. -/
inductive CudaEvent where
  | mallocCall (size : Int)
  | allocMappedCall (size : Int)
  | freeCall (addr : Nat)
  | freeHostCall (addr : Nat)
deriving DecidableEq, Repr

/-- The two capsule type names used by the bindings:
CUDA_MALLOC_MEMORY_CAPSULE and CUDA_MAPPED_MEMORY_CAPSULE. -/
inductive CapsuleName where
  | malloc
  | mapped
deriving DecidableEq, Repr

/-- The two destructor callbacks that can be attached to a capsule:
PyCUDA_FreeMalloc and PyCUDA_FreeMapped (none models a NULL destructor). -/
inductive Destr where
  | freeMalloc
  | freeMapped
deriving DecidableEq, Repr

/-- A PyCapsule as the bindings use it: a stored pointer, a type name, and
an optional destructor callback. -/
structure Capsule where
  ptr : Nat
  name : CapsuleName
  destructor : Option Destr
deriving DecidableEq, Repr

/-- PyCapsule_GetPointer: returns the stored pointer when the requested name
matches the capsule name, NULL (0) otherwise. -/
def PyCapsule_GetPointer (c : Capsule) (n : CapsuleName) : Nat :=
  if c.name = n then c.ptr else 0

def msgMallocParse : String := "cudaMalloc() failed to parse size argument"

def msgMallocSize : String := "cudaMalloc() requested size is negative or zero"

def msgMallocFailed : String := "cudaMalloc() failed"

def msgRegNull : String := "RegisterMemory() was provided NULL memory pointers"

def msgRegCapFail : String := "RegisterMemory() failed to create PyCapsule container"

def msgAllocMappedParse : String := "cudaAllocMapped() failed to parse size argument"

def msgAllocMappedSize : String := "cudaAllocMapped() requested size is negative or zero"

def msgAllocMappedFailed : String := "cudaAllocMapped() failed"

def msgRegMappedNull : String := "RegisterMappedMemory() was provided NULL memory pointers"

def msgRegMappedMismatch : String := "RegisterMappedMemory() pointers do not match"

def msgRegMappedCapFail : String := "RegisterMappedMemory() failed to create PyCapsule container"

/-- PyCUDA_FreeMalloc (source lines 31-48): fetches the pointer from the
capsule; if NULL it returns having freed nothing, otherwise it invokes
cudaFree on it. The capsule is returned unchanged: the source never clears
or rewrites the capsule pointer. A failing cudaFree only logs, so the
invocation is recorded either way. -/
def PyCUDA_FreeMalloc (c : Capsule) : Capsule × List CudaEvent :=
  let p := PyCapsule_GetPointer c CapsuleName.malloc
  if p = 0 then (c, []) else (c, [CudaEvent.freeCall p])

/-- PyCUDA_FreeMapped (source lines 109-126): same shape as
PyCUDA_FreeMalloc but for the mapped capsule name and cudaFreeHost. -/
def PyCUDA_FreeMapped (c : Capsule) : Capsule × List CudaEvent :=
  let p := PyCapsule_GetPointer c CapsuleName.mapped
  if p = 0 then (c, []) else (c, [CudaEvent.freeHostCall p])

/-- The events produced when a capsule is destroyed by the Python runtime:
its destructor callback, when attached, runs on the capsule. -/
def destroyCapsule (c : Capsule) : List CudaEvent :=
  match c.destructor with
  | none => []
  | some Destr.freeMalloc => (PyCUDA_FreeMalloc c).snd
  | some Destr.freeMapped => (PyCUDA_FreeMapped c).snd

/-- PyCUDA_RegisterMemory (source lines 52-74). `capsuleNewOk` is the oracle
for PyCapsule_New succeeding. On a NULL input pointer it fails; if the
capsule cannot be created it fails, first invoking cudaFree on the pointer
when `freeOnDelete` is set. On success the capsule carries the malloc
capsule name and, when `freeOnDelete`, the PyCUDA_FreeMalloc destructor. -/
def PyCUDA_RegisterMemory (gpuPtr : Nat) (freeOnDelete : Bool)
    (capsuleNewOk : Bool) : Except String Capsule × List CudaEvent :=
  if gpuPtr = 0 then
    (Except.error msgRegNull, [])
  else if capsuleNewOk then
    (Except.ok ⟨gpuPtr, CapsuleName.malloc,
       if freeOnDelete then some Destr.freeMalloc else none⟩, [])
  else
    (Except.error msgRegCapFail,
     if freeOnDelete then [CudaEvent.freeCall gpuPtr] else [])

/-- Outcome of one cudaMalloc call: `ret` is the cudaError_t return value
(0 = cudaSuccess) and `addr` the address stored through the out-pointer when
the call succeeds (on failure the out-pointer keeps its initial NULL). -/
structure MallocPrim where
  ret : Nat
  addr : Nat
deriving DecidableEq, Repr

/-- PyCUDA_Malloc (source lines 78-104). `parsedSize` is none when
PyArg_ParseTuple fails. After the positivity check the source runs
`if( !cudaMalloc(&gpuPtr, size) )`: cudaMalloc returns cudaError_t, so the
C negation is true exactly when `ret = 0`, i.e. when the allocation
SUCCEEDED, and the "cudaMalloc() failed" error is raised on that branch;
otherwise gpuPtr (still NULL after a failed cudaMalloc) is handed to
PyCUDA_RegisterMemory. Modelled from the spec: the defaulted freeOnDelete
argument of PyCUDA_RegisterMemory comes from the header PyCUDA.h, which is
not in src/; the spec fixes `owns_release = true` for this path. -/
def PyCUDA_Malloc (parsedSize : Option Int) (prim : MallocPrim)
    (capsuleNewOk : Bool) : Except String Capsule × List CudaEvent :=
  match parsedSize with
  | none => (Except.error msgMallocParse, [])
  | some size =>
    if size ≤ 0 then
      (Except.error msgMallocSize, [])
    else
      let gpuPtr := if prim.ret = 0 then prim.addr else 0
      if prim.ret = 0 then
        (Except.error msgMallocFailed, [CudaEvent.mallocCall size])
      else
        let r := PyCUDA_RegisterMemory gpuPtr true capsuleNewOk
        (r.fst, CudaEvent.mallocCall size :: r.snd)

/-- PyCUDA_RegisterMappedMemory (source lines 130-162): fails on a NULL
pointer; on a CPU/GPU address mismatch it raises an error after invoking
cudaFreeHost on the CPU pointer when `freeOnDelete`; if the capsule cannot
be created it likewise frees (host free) when `freeOnDelete` and fails.
On success the capsule stores the shared pointer under the mapped capsule
name with the PyCUDA_FreeMapped destructor when `freeOnDelete`. -/
def PyCUDA_RegisterMappedMemory (cpuPtr gpuPtr : Nat) (freeOnDelete : Bool)
    (capsuleNewOk : Bool) : Except String Capsule × List CudaEvent :=
  if cpuPtr = 0 ∨ gpuPtr = 0 then
    (Except.error msgRegMappedNull, [])
  else if cpuPtr ≠ gpuPtr then
    (Except.error msgRegMappedMismatch,
     if freeOnDelete then [CudaEvent.freeHostCall cpuPtr] else [])
  else if capsuleNewOk then
    (Except.ok ⟨cpuPtr, CapsuleName.mapped,
       if freeOnDelete then some Destr.freeMapped else none⟩, [])
  else
    (Except.error msgRegMappedCapFail,
     if freeOnDelete then [CudaEvent.freeHostCall cpuPtr] else [])

/-- Outcome of one cudaAllocMapped call: the jetson-utils helper returns a
bool (`ok`, true = success) and on success stores the CPU and GPU addresses
through its out-pointers (on failure they keep their initial NULL). -/
structure MappedPrim where
  ok : Bool
  cpu : Nat
  gpu : Nat
deriving DecidableEq, Repr

/-- PyCUDA_AllocMapped (source lines 166-193). After the parse and
positivity checks it runs cudaAllocMapped; on failure (the helper returns
false) it raises "cudaAllocMapped() failed"; on success it registers the two
addresses. Modelled from the spec: the defaulted freeOnDelete argument of
PyCUDA_RegisterMappedMemory comes from the header PyCUDA.h, which is not in
src/; the spec fixes `owns_release = true` for this path. -/
def PyCUDA_AllocMapped (parsedSize : Option Int) (prim : MappedPrim)
    (capsuleNewOk : Bool) : Except String Capsule × List CudaEvent :=
  match parsedSize with
  | none => (Except.error msgAllocMappedParse, [])
  | some size =>
    if size ≤ 0 then
      (Except.error msgAllocMappedSize, [])
    else
      let cpuPtr := if prim.ok then prim.cpu else 0
      let gpuPtr := if prim.ok then prim.gpu else 0
      if ¬ prim.ok then
        (Except.error msgAllocMappedFailed, [CudaEvent.allocMappedCall size])
      else
        let r := PyCUDA_RegisterMappedMemory cpuPtr gpuPtr true capsuleNewOk
        (r.fst, CudaEvent.allocMappedCall size :: r.snd)

/-- An RGBA quadruple; CUDA float4 channels carry the exact values 0..255
written in the source, represented as rationals. -/
structure Float4 where
  x : ℚ
  y : ℚ
  z : ℚ
  w : ℚ
deriving DecidableEq, Repr

/-- The body of the INIT_COLOR macro in PyFont_New (source lines 254-259):
Py_BuildValue with format "(ffff)" on r, g, b and literal 255.0. -/
def INIT_COLOR (r g b : ℚ) : Float4 := ⟨r, g, b, 255⟩

/-- The fourteen color tuples a freshly constructed PyFont_Object carries,
together with its font pointer (none until PyFont_Init runs). -/
structure PyFontObject where
  black : Float4
  white : Float4
  gray : Float4
  brown : Float4
  tan : Float4
  red : Float4
  green : Float4
  blue : Float4
  cyan : Float4
  lime : Float4
  yellow : Float4
  orange : Float4
  purple : Float4
  magenta : Float4
  fontInit : Bool
deriving DecidableEq, Repr

/-- PyFont_New (source lines 239-278): the color members exactly as the
INIT_COLOR lines set them, and font = NULL. -/
def PyFont_New : PyFontObject where
  black := INIT_COLOR 0 0 0
  white := INIT_COLOR 255 255 255
  gray := INIT_COLOR 128 128 128
  brown := INIT_COLOR 165 42 42
  tan := INIT_COLOR 210 180 140
  red := INIT_COLOR 255 255 255
  green := INIT_COLOR 0 200 128
  blue := INIT_COLOR 0 0 255
  cyan := INIT_COLOR 0 255 255
  lime := INIT_COLOR 0 255 0
  yellow := INIT_COLOR 255 255 0
  orange := INIT_COLOR 255 165 0
  purple := INIT_COLOR 128 0 128
  magenta := INIT_COLOR 255 0 255
  fontInit := false

/-- The color argument of Overlay as a Python value: either not a tuple at
all, or a tuple whose components each either convert to a float (some q) or
fail the "f" conversion (none). -/
inductive ColorArg where
  | notTuple
  | tuple (elems : List (Option ℚ))
deriving DecidableEq, Repr

/-- PyArg_ParseTuple on the color tuple with format "fff|f" (source line
387): needs at least three and at most four components, each converting to
a float; a missing fourth component leaves the initial rgba.w untouched. -/
def parseColorFFF (elems : List (Option ℚ)) (init : Float4) : Option Float4 :=
  match elems with
  | [some r, some g, some b] => some ⟨r, g, b, init.w⟩
  | [some r, some g, some b, some a] => some ⟨r, g, b, a⟩
  | _ => none

/-- The color-handling block of PyFont_Overlay (source lines 377-392): the
rgba value starts as make_float4(0, 0, 0, 255); an omitted color keeps it,
a non-tuple color or an unparseable tuple is an error. -/
def parseOverlayColor (color : Option ColorArg) : Option Float4 :=
  match color with
  | none => some ⟨0, 0, 0, 255⟩
  | some ColorArg.notTuple => none
  | some (ColorArg.tuple es) => parseColorFFF es ⟨0, 0, 0, 255⟩

/-- The arguments of one Overlay call after PyArg_ParseTupleAndKeywords
succeeded. Objects passed for input/output are represented by the pointer
PyCUDA_GetPointer yields for them (0 when no pointer can be obtained);
output = none models the caller omitting the optional output argument.
Modelled from the spec: PyCUDA_GetPointer is declared in PyCUDA.h and
defined outside src/; per the spec it deterministically extracts the
buffer address from a handle, or NULL on failure. -/
structure OverlayArgs where
  input : Nat
  width : Int
  height : Int
  text : String
  x : Int
  y : Int
  color : Option ColorArg
  output : Option Nat
deriving DecidableEq, Repr

/-- The call PyFont_Overlay forwards to cudaFont::RenderOverlay (source
line 422), recording exactly which buffers, dimensions, text, position and
color the renderer receives. -/
structure RenderCall where
  src : Nat
  dst : Nat
  width : Int
  height : Int
  text : String
  x : Int
  y : Int
  rgba : Float4
deriving DecidableEq, Repr

def msgOverlayInvalid : String := "cudaFont invalid object instance"

def msgOverlayParse : String := "cudaFont.Overlay() failed to parse args tuple"

def msgColorNotTuple : String := "cudaFont.Overlay() color argument is not a valid tuple"

def msgColorParse : String := "cudaFont.Overlay() failed to parse color tuple"

def msgOverlayDims : String := "cudaFont.Overlay() image dimensions are invalid"

def msgOverlayInputPtr : String := "cudaFont.Overlay() failed to get input image pointer from PyCapsule container"

def msgOverlayOutputPtr : String := "cudaFont.Overlay() failed to get output image pointer from PyCapsule container"

/-- PyFont_Overlay (source lines 344-426), with `fontInit` standing for
`self && self->font` and `args = none` for a failing
PyArg_ParseTupleAndKeywords. The checks run in source order: instance,
argument parse, output defaulting to input, color parse, dimension check,
input pointer, output pointer; then RenderOverlay is invoked (a void call)
and the binding returns success. -/
def PyFont_Overlay (fontInit : Bool) (args : Option OverlayArgs) :
    Except String RenderCall :=
  if ¬ fontInit then
    Except.error msgOverlayInvalid
  else
    match args with
    | none => Except.error msgOverlayParse
    | some a =>
      let output := a.output.getD a.input
      let colorRes : Except String Float4 :=
        match a.color with
        | none => Except.ok ⟨0, 0, 0, 255⟩
        | some ColorArg.notTuple => Except.error msgColorNotTuple
        | some (ColorArg.tuple es) =>
          match parseColorFFF es ⟨0, 0, 0, 255⟩ with
          | none => Except.error msgColorParse
          | some rgba => Except.ok rgba
      match colorRes with
      | Except.error m => Except.error m
      | Except.ok rgba =>
        if a.width ≤ 0 ∨ a.height ≤ 0 then Except.error msgOverlayDims
        else if a.input = 0 then Except.error msgOverlayInputPtr
        else if output = 0 then Except.error msgOverlayOutputPtr
        else Except.ok ⟨a.input, output, a.width, a.height, a.text, a.x, a.y, rgba⟩

/-- Whether a binding call succeeded. -/
def isSuccess {α : Type} (e : Except String α) : Bool :=
  match e with
  | Except.ok _ => true
  | Except.error _ => false

/-- C1: the claim says PyCUDA_Malloc fails exactly when cudaMalloc fails and
wraps the address on primitive success. The code inverts the check: with a
positive size it raises the "cudaMalloc() failed" error precisely when
cudaMalloc returns cudaSuccess (ret = 0), and it can never return a handle,
because on a genuine cudaMalloc failure it registers the still-NULL
pointer, which also fails. -/
theorem pycuda_malloc_inverted_success_check
    (size : Int) (prim : MallocPrim) (capsuleNewOk : Bool) (hpos : 0 < size) :
    ((PyCUDA_Malloc (some size) prim capsuleNewOk).fst
        = Except.error msgMallocFailed ↔ prim.ret = 0)
    ∧ ∀ c : Capsule,
        (PyCUDA_Malloc (some size) prim capsuleNewOk).fst ≠ Except.ok c := by
  have hns : ¬ size ≤ 0 := by omega
  by_cases hret : prim.ret = 0
  · simp [PyCUDA_Malloc, hns, hret]
  · simp [PyCUDA_Malloc, PyCUDA_RegisterMemory, hns, hret, msgRegNull,
      msgMallocFailed]

/-- Witness for C1: cudaMalloc succeeds (returns 0) with address 4096 for a
requested size of 16, yet the binding reports "cudaMalloc() failed". -/
theorem pycuda_malloc_inverted_success_check_w :
    (PyCUDA_Malloc (some 16) ⟨0, 4096⟩ true).fst
      = Except.error msgMallocFailed :=
  (pycuda_malloc_inverted_success_check 16 ⟨0, 4096⟩ true (by decide)).1.mpr rfl

/-- C2: when cudaAllocMapped reports success but hands back two non-null,
distinct addresses, PyCUDA_AllocMapped invokes cudaFreeHost on the CPU
address and returns the mismatch error; no capsule is constructed. -/
theorem pycuda_allocmapped_mismatch_frees_and_fails
    (size : Int) (prim : MappedPrim) (capsuleNewOk : Bool)
    (hpos : 0 < size) (hok : prim.ok = true)
    (hcpu : prim.cpu ≠ 0) (hgpu : prim.gpu ≠ 0) (hne : prim.cpu ≠ prim.gpu) :
    PyCUDA_AllocMapped (some size) prim capsuleNewOk
      = (Except.error msgRegMappedMismatch,
         [CudaEvent.allocMappedCall size, CudaEvent.freeHostCall prim.cpu]) := by
  have hns : ¬ size ≤ 0 := by omega
  simp [PyCUDA_AllocMapped, PyCUDA_RegisterMappedMemory, hns, hok, hcpu,
    hgpu, hne]

/-- Witness for C2: a mapped allocation of size 8 returning CPU address 100
and GPU address 200 is freed on the host side and reported as a failure. -/
theorem pycuda_allocmapped_mismatch_frees_and_fails_w :
    PyCUDA_AllocMapped (some 8) ⟨true, 100, 200⟩ true
      = (Except.error msgRegMappedMismatch,
         [CudaEvent.allocMappedCall 8, CudaEvent.freeHostCall 100]) :=
  pycuda_allocmapped_mismatch_frees_and_fails 8 ⟨true, 100, 200⟩ true
    (by decide) rfl (by decide) (by decide) (by decide)

/-- C3 counterexample: releasing a malloc capsule holding address 42 leaves
the stored address at 42 (nothing is cleared), so a second release invokes
cudaFree on 42 once more instead of zero times. -/
theorem pycuda_release_second_call_frees_again :
    (PyCUDA_FreeMalloc
        (PyCUDA_FreeMalloc ⟨42, CapsuleName.malloc, some Destr.freeMalloc⟩).fst).snd
      = [CudaEvent.freeCall 42]
    ∧ (PyCUDA_FreeMalloc ⟨42, CapsuleName.malloc, some Destr.freeMalloc⟩).fst.ptr
      = 42 := by
  exact ⟨rfl, rfl⟩

/-- C3 amended: the free routines return the capsule unchanged — the stored
address is never cleared — and each invocation with a non-null stored
address calls the matching free primitive exactly once; hence a second
Release on the same handle frees again, and at-most-once release rests on
the runtime calling the capsule destructor at most once. -/
theorem pycuda_release_keeps_address (p : Nat) (d : Option Destr) (hp : p ≠ 0) :
    PyCUDA_FreeMalloc ⟨p, CapsuleName.malloc, d⟩
      = (⟨p, CapsuleName.malloc, d⟩, [CudaEvent.freeCall p])
    ∧ PyCUDA_FreeMapped ⟨p, CapsuleName.mapped, d⟩
      = (⟨p, CapsuleName.mapped, d⟩, [CudaEvent.freeHostCall p]) := by
  simp [PyCUDA_FreeMalloc, PyCUDA_FreeMapped, PyCapsule_GetPointer, hp]

/-- Witness for the amended C3: a capsule holding 42 is freed once per call
and keeps its address across the call. -/
theorem pycuda_release_keeps_address_w :
    PyCUDA_FreeMalloc ⟨42, CapsuleName.malloc, some Destr.freeMalloc⟩
      = (⟨42, CapsuleName.malloc, some Destr.freeMalloc⟩, [CudaEvent.freeCall 42])
    ∧ PyCUDA_FreeMapped ⟨42, CapsuleName.mapped, some Destr.freeMalloc⟩
      = (⟨42, CapsuleName.mapped, some Destr.freeMalloc⟩, [CudaEvent.freeHostCall 42]) :=
  pycuda_release_keeps_address 42 (some Destr.freeMalloc) (by decide)

/-- C5: a non-positive parsed size makes both allocators fail with their
invalid-size message and an empty event trace — the allocation primitive is
never invoked — and that message differs from the message used when the
allocation primitive itself is reported failed. -/
theorem pycuda_alloc_size_check
    (size : Int) (mp : MallocPrim) (ap : MappedPrim) (capsuleNewOk : Bool)
    (hle : size ≤ 0) :
    PyCUDA_Malloc (some size) mp capsuleNewOk = (Except.error msgMallocSize, [])
    ∧ PyCUDA_AllocMapped (some size) ap capsuleNewOk
      = (Except.error msgAllocMappedSize, [])
    ∧ msgMallocSize ≠ msgMallocFailed
    ∧ msgAllocMappedSize ≠ msgAllocMappedFailed := by
  refine ⟨?_, ?_, by decide, by decide⟩
  · simp [PyCUDA_Malloc, hle]
  · simp [PyCUDA_AllocMapped, hle]

/-- Witness for C5: size 0 is rejected by both allocators with the
invalid-size errors and no primitive call. -/
theorem pycuda_alloc_size_check_w :
    PyCUDA_Malloc (some 0) ⟨0, 0⟩ true = (Except.error msgMallocSize, [])
    ∧ PyCUDA_AllocMapped (some 0) ⟨false, 0, 0⟩ true
      = (Except.error msgAllocMappedSize, [])
    ∧ msgMallocSize ≠ msgMallocFailed
    ∧ msgAllocMappedSize ≠ msgAllocMappedFailed :=
  pycuda_alloc_size_check 0 ⟨0, 0⟩ ⟨false, 0, 0⟩ true (by decide)

/-- C6: registering a non-null pointer with freeOnDelete = false never
produces a free event on any path, and a successfully created capsule
carries no destructor, so destroying it frees nothing. -/
theorem pycuda_register_nonowning_never_frees
    (p q : Nat) (capsuleNewOk : Bool) (hp : p ≠ 0) :
    (PyCUDA_RegisterMemory p false capsuleNewOk).snd = []
    ∧ (PyCUDA_RegisterMappedMemory p q false capsuleNewOk).snd = []
    ∧ PyCUDA_RegisterMemory p false true
      = (Except.ok ⟨p, CapsuleName.malloc, none⟩, [])
    ∧ PyCUDA_RegisterMappedMemory p p false true
      = (Except.ok ⟨p, CapsuleName.mapped, none⟩, [])
    ∧ destroyCapsule ⟨p, CapsuleName.malloc, none⟩ = []
    ∧ destroyCapsule ⟨p, CapsuleName.mapped, none⟩ = [] := by
  refine ⟨?_, ?_, ?_, ?_, rfl, rfl⟩
  · unfold PyCUDA_RegisterMemory
    split_ifs <;> simp_all
  · unfold PyCUDA_RegisterMappedMemory
    split_ifs <;> simp_all
  · simp [PyCUDA_RegisterMemory, hp]
  · simp [PyCUDA_RegisterMappedMemory, hp]

/-- Witness for C6: registering address 3 without ownership frees nothing,
and the capsule built for it has no destructor. -/
theorem pycuda_register_nonowning_never_frees_w :
    (PyCUDA_RegisterMemory 3 false false).snd = []
    ∧ (PyCUDA_RegisterMappedMemory 3 7 false false).snd = []
    ∧ PyCUDA_RegisterMemory 3 false true
      = (Except.ok ⟨3, CapsuleName.malloc, none⟩, [])
    ∧ PyCUDA_RegisterMappedMemory 3 3 false true
      = (Except.ok ⟨3, CapsuleName.mapped, none⟩, [])
    ∧ destroyCapsule ⟨3, CapsuleName.malloc, none⟩ = []
    ∧ destroyCapsule ⟨3, CapsuleName.mapped, none⟩ = [] :=
  pycuda_register_nonowning_never_frees 3 7 false (by decide)

/-- C9: when PyCapsule_New fails, registration with freeOnDelete = true
frees the supplied memory with the matching primitive (cudaFree for device
memory, cudaFreeHost for mapped memory) before reporting the capsule
failure, and with freeOnDelete = false that path frees nothing. -/
theorem pycuda_register_capsule_failure_cleanup (p : Nat) (hp : p ≠ 0) :
    PyCUDA_RegisterMemory p true false
      = (Except.error msgRegCapFail, [CudaEvent.freeCall p])
    ∧ PyCUDA_RegisterMemory p false false = (Except.error msgRegCapFail, [])
    ∧ PyCUDA_RegisterMappedMemory p p true false
      = (Except.error msgRegMappedCapFail, [CudaEvent.freeHostCall p])
    ∧ PyCUDA_RegisterMappedMemory p p false false
      = (Except.error msgRegMappedCapFail, []) := by
  simp [PyCUDA_RegisterMemory, PyCUDA_RegisterMappedMemory, hp]

/-- Witness for C9: capsule-creation failure for address 7 frees it with
the matching primitive exactly when ownership was requested. -/
theorem pycuda_register_capsule_failure_cleanup_w :
    PyCUDA_RegisterMemory 7 true false
      = (Except.error msgRegCapFail, [CudaEvent.freeCall 7])
    ∧ PyCUDA_RegisterMemory 7 false false = (Except.error msgRegCapFail, [])
    ∧ PyCUDA_RegisterMappedMemory 7 7 true false
      = (Except.error msgRegMappedCapFail, [CudaEvent.freeHostCall 7])
    ∧ PyCUDA_RegisterMappedMemory 7 7 false false
      = (Except.error msgRegMappedCapFail, []) :=
  pycuda_register_capsule_failure_cleanup 7 (by decide)

/-- A fully well-formed Overlay call except that its color argument is not
a tuple: positive dimensions, obtainable input and output pointers. -/
def overlayColorCex : OverlayArgs :=
  ⟨5, 10, 10, "A", 0, 0, some ColorArg.notTuple, none⟩

/-- C4 counterexample: with the instance initialized, width = height = 10,
and an obtainable (non-null) buffer pointer, the call still fails because
the color argument is not a tuple — so failure is not restricted to the
three conditions the claim lists (bad dimensions, null buffers,
uninitialized instance). -/
theorem pyfont_overlay_fails_beyond_listed_preconditions :
    isSuccess (PyFont_Overlay true (some overlayColorCex)) = false
    ∧ (0 : Int) < overlayColorCex.width
    ∧ (0 : Int) < overlayColorCex.height
    ∧ overlayColorCex.input ≠ 0
    ∧ overlayColorCex.output.getD overlayColorCex.input ≠ 0 := by
  refine ⟨rfl, by decide, by decide, by decide, by decide⟩

/-- C4 amended: an Overlay call on parsed arguments succeeds exactly when
the instance is initialized, the color argument (when present) parses as a
tuple of three or four floats, both dimensions are positive, and the input
and (possibly defaulted) output pointers are non-null; a failing argument
parse also fails the call. No per-character or per-pixel condition appears:
the renderer is invoked as a void call and the binding then returns
success. -/
theorem pyfont_overlay_success_iff (f : Bool) (a : OverlayArgs) :
    (isSuccess (PyFont_Overlay f (some a)) = true ↔
      (f = true ∧ (parseOverlayColor a.color).isSome = true
       ∧ 0 < a.width ∧ 0 < a.height
       ∧ a.input ≠ 0 ∧ a.output.getD a.input ≠ 0))
    ∧ isSuccess (PyFont_Overlay f none) = false := by
  constructor
  · cases f
    · simp [PyFont_Overlay, isSuccess]
    · rcases a with ⟨inp, w, hgt, t, x, y, color, out⟩
      rcases color with _ | ca
      · simp only [PyFont_Overlay, parseOverlayColor, isSuccess]
        split_ifs with h1 h2 h3 <;> simp_all
        all_goals omega
      · rcases ca with _ | es
        · simp [PyFont_Overlay, parseOverlayColor, isSuccess]
        · simp only [PyFont_Overlay, parseOverlayColor, isSuccess]
          rcases hpc : parseColorFFF es ⟨0, 0, 0, 255⟩ with _ | rgba
          · simp [hpc]
          · simp only [hpc]
            split_ifs with h1 h2 h3 <;> simp_all
            all_goals omega
  · cases f <;> simp [PyFont_Overlay, isSuccess]

/-- C7: when the output argument is omitted, the destination buffer handed
to RenderOverlay is the input buffer itself — a true in-place overlay — and
the call succeeds (given the remaining checks pass). -/
theorem pyfont_overlay_omitted_output_in_place
    (a : OverlayArgs) (rgba : Float4)
    (hout : a.output = none) (hc : parseOverlayColor a.color = some rgba)
    (hw : 0 < a.width) (hh : 0 < a.height) (hin : a.input ≠ 0) :
    PyFont_Overlay true (some a)
      = Except.ok ⟨a.input, a.input, a.width, a.height, a.text, a.x, a.y, rgba⟩ := by
  rcases a with ⟨inp, w, hgt, t, x, y, color, out⟩
  simp only at hout hc hw hh hin
  subst hout
  rcases color with _ | ca
  · simp only [parseOverlayColor, Option.some.injEq] at hc
    subst hc
    simp [PyFont_Overlay, hin, hw.not_le, hh.not_le]
  · rcases ca with _ | es
    · simp [parseOverlayColor] at hc
    · simp only [parseOverlayColor] at hc
      simp [PyFont_Overlay, hc, hin, hw.not_le, hh.not_le]

/-- Witness for C7: rendering "hi" on a 4 x 3 buffer at address 5 with the
output argument omitted targets address 5 for both source and
destination. -/
theorem pyfont_overlay_omitted_output_in_place_w :
    PyFont_Overlay true (some ⟨5, 4, 3, "hi", 1, 2, none, none⟩)
      = Except.ok ⟨5, 5, 4, 3, "hi", 1, 2, ⟨0, 0, 0, 255⟩⟩ :=
  pyfont_overlay_omitted_output_in_place
    ⟨5, 4, 3, "hi", 1, 2, none, none⟩ ⟨0, 0, 0, 255⟩
    rfl rfl (by decide) (by decide) (by decide)

/-- C8: the fourteen color constants of a freshly constructed font object
carry exactly the channel values written in PyFont_New — including
red = (255, 255, 255, 255), identical to white — and every alpha channel is
255. -/
theorem pyfont_color_constants :
    PyFont_New.black = ⟨0, 0, 0, 255⟩
    ∧ PyFont_New.white = ⟨255, 255, 255, 255⟩
    ∧ PyFont_New.gray = ⟨128, 128, 128, 255⟩
    ∧ PyFont_New.brown = ⟨165, 42, 42, 255⟩
    ∧ PyFont_New.tan = ⟨210, 180, 140, 255⟩
    ∧ PyFont_New.red = ⟨255, 255, 255, 255⟩
    ∧ PyFont_New.green = ⟨0, 200, 128, 255⟩
    ∧ PyFont_New.blue = ⟨0, 0, 255, 255⟩
    ∧ PyFont_New.cyan = ⟨0, 255, 255, 255⟩
    ∧ PyFont_New.lime = ⟨0, 255, 0, 255⟩
    ∧ PyFont_New.yellow = ⟨255, 255, 0, 255⟩
    ∧ PyFont_New.orange = ⟨255, 165, 0, 255⟩
    ∧ PyFont_New.purple = ⟨128, 0, 128, 255⟩
    ∧ PyFont_New.magenta = ⟨255, 0, 255, 255⟩
    ∧ PyFont_New.black.w = 255 ∧ PyFont_New.white.w = 255
    ∧ PyFont_New.gray.w = 255 ∧ PyFont_New.brown.w = 255
    ∧ PyFont_New.tan.w = 255 ∧ PyFont_New.red.w = 255
    ∧ PyFont_New.green.w = 255 ∧ PyFont_New.blue.w = 255
    ∧ PyFont_New.cyan.w = 255 ∧ PyFont_New.lime.w = 255
    ∧ PyFont_New.yellow.w = 255 ∧ PyFont_New.orange.w = 255
    ∧ PyFont_New.purple.w = 255 ∧ PyFont_New.magenta.w = 255 := by
  decide

/-- C10: a color tuple of exactly three parsed floats is accepted and the
alpha channel of the rendered color is the pre-initialized 255, while a
color tuple with fewer than three components fails the call. -/
theorem pyfont_overlay_color_three_components
    (a : OverlayArgs) (r g b : ℚ) (es : List (Option ℚ))
    (hw : 0 < a.width) (hh : 0 < a.height) (hin : a.input ≠ 0)
    (hout : a.output.getD a.input ≠ 0)
    (hc : a.color = some (ColorArg.tuple [some r, some g, some b]))
    (hes : es.length < 3) :
    PyFont_Overlay true (some a)
      = Except.ok ⟨a.input, a.output.getD a.input, a.width, a.height,
          a.text, a.x, a.y, ⟨r, g, b, 255⟩⟩
    ∧ isSuccess (PyFont_Overlay true
        (some { a with color := some (ColorArg.tuple es) })) = false := by
  rcases a with ⟨inp, w, hgt, t, x, y, color, out⟩
  simp only at hw hh hin hout hc
  subst hc
  constructor
  · simp [PyFont_Overlay, parseColorFFF, hin, hout, hw.not_le, hh.not_le]
  · have hnone : parseColorFFF es ⟨0, 0, 0, 255⟩ = none := by
      rcases es with _ | ⟨e1, _ | ⟨e2, _ | ⟨e3, rest⟩⟩⟩
      · rfl
      · rcases e1 with _ | q1 <;> rfl
      · rcases e1 with _ | q1 <;> rcases e2 with _ | q2 <;> rfl
      · simp only [List.length_cons] at hes
        omega
    simp [PyFont_Overlay, isSuccess, hnone]

/-- Witness for C10: the color tuple (1, 2, 3) renders with alpha 255 on a
4 x 3 buffer, and the empty color tuple fails the call. -/
theorem pyfont_overlay_color_three_components_w :
    PyFont_Overlay true
        (some ⟨5, 4, 3, "t", 0, 0,
          some (ColorArg.tuple [some 1, some 2, some 3]), none⟩)
      = Except.ok ⟨5, 5, 4, 3, "t", 0, 0, ⟨1, 2, 3, 255⟩⟩
    ∧ isSuccess (PyFont_Overlay true
        (some ⟨5, 4, 3, "t", 0, 0, some (ColorArg.tuple []), none⟩)) = false :=
  pyfont_overlay_color_three_components
    ⟨5, 4, 3, "t", 0, 0, some (ColorArg.tuple [some 1, some 2, some 3]), none⟩
    1 2 3 [] (by decide) (by decide) (by decide) (by decide) rfl (by decide)

end PyCUDA
